import Mathlib

/-!
Shallow embedding of the IPTV subscriber-management core
(`src/core/database.py`, class `IPTVDatabase`, and `src/core/server.py`,
class `XtreamCodesServer`).

Modelling conventions:
* SQLite rows become Lean structures; a table is a `List` of rows kept in
  insertion (rowid) order, which is the order an unordered `SELECT` returns.
* Nullable SQL columns are `Option` fields; SQL `col = ?` comparison against a
  `NULL` parameter is never true, which `sqlEqOpt` reproduces.
* `datetime.now()` / `CURRENT_TIMESTAMP` values are passed in explicitly as
  `now : String` arguments (SQLite stores and compares them as text).
* `hashlib.sha256(...).hexdigest()` (and `md5` in the server) are modelled as
  an explicit function argument `hash : String → String`: the code only ever
  applies the hash and compares results for equality, so nothing depends on
  the concrete digest.
* Python f-string interpolation of a possibly-`None` value prints `None`
  (`optStr`); Python `x or y` on strings falls back on `None` and `""`
  (`pyOrStr`).
* Operations that would raise a Python/SQLite exception (UNIQUE violation,
  indexing a missing row) return `Option`/are modelled at the call site.
-/

namespace IPTV

/-- Row of the `users` table (columns the core reads or writes). -/
structure User where
  id : Int
  username : String
  password : String
  email : Option String := none
  role : String := "user"
  is_active : Int := 1
  max_connections : Int := 1
  created_at : String := ""
  expires_at : Option String := none
  last_login : Option String := none
  api_key : Option String := none
  deriving Repr, DecidableEq

/-- Row of the `active_sessions` table. -/
structure Session where
  session_id : String
  user_id : Int
  stream_id : Option Int := none
  client_ip : Option String := none
  user_agent : Option String := none
  start_time : String := ""
  last_active : String := ""
  is_active : Int := 1
  bytes_sent : Int := 0
  deriving Repr, DecidableEq

/-- Row of the `live_streams` table (columns the playlist generator reads).
`category_name` is the stream's own denormalized column; the join against
`categories` is computed from `category_id` at query time. -/
structure LiveStream where
  stream_id : Int
  stream_name : String
  stream_url : String
  category_id : Option Int := none
  category_name : Option String := none
  stream_icon : Option String := none
  epg_channel_id : Option String := none
  is_active : Int := 1
  user_id : Option Int := none
  proxy_url : Option String := none
  deriving Repr, DecidableEq

/-- Row of the `categories` table. -/
structure Category where
  category_id : Int
  category_name : String
  parent_id : Int := 0
  category_type : String := "live"
  is_active : Int := 1
  user_id : Option Int := none
  sort_order : Int := 0
  deriving Repr, DecidableEq

/-- Row of the `statistics` table (columns `add_statistic` touches). -/
structure StatRow where
  stat_id : Int
  stat_date : String
  user_id : Option Int := none
  stream_id : Option Int := none
  total_views : Int := 0
  total_bytes : Int := 0
  peak_viewers : Int := 0
  deriving Repr, DecidableEq

/-- Row of the `logs` table (columns `log_action` writes; `log_date` and
`log_level` take their column defaults `CURRENT_TIMESTAMP` and `'info'`). -/
structure LogRow where
  log_date : String := ""
  log_level : String := "info"
  user_id : Option Int := none
  action : String := ""
  details : String := ""
  deriving Repr, DecidableEq

/-- The persistent state of `IPTVDatabase`: each table as a list of rows in
rowid (insertion) order. -/
structure DB where
  users : List User := []
  sessions : List Session := []
  streams : List LiveStream := []
  categories : List Category := []
  stats : List StatRow := []
  logs : List LogRow := []
  deriving Repr, DecidableEq

/-- Python f-string rendering of an optional string: `None` prints as
`"None"`. -/
def optStr : Option String → String
  | none => "None"
  | some s => s

/-- Python `x or y` for an optional string `x`: `None` and the empty string
are falsy and fall through to `y`. -/
def pyOrStr (x : Option String) (y : String) : String :=
  match x with
  | none => y
  | some s => if s = "" then y else s

/-- Lexicographic strict order on character lists, comparing codepoints.
This is Lean's `String <` spelled out (and SQLite's bytewise TEXT comparison
on the ASCII data involved), written over `Char.toNat` so that it evaluates
by `decide`. -/
def charsLt : List Char → List Char → Bool
  | [], [] => false
  | [], _ :: _ => true
  | _ :: _, [] => false
  | c :: cs, d :: ds =>
    if c.toNat < d.toNat then true
    else if d.toNat < c.toNat then false
    else charsLt cs ds

/-- String strict order used to model SQLite TEXT comparison. -/
def strLt (a b : String) : Bool :=
  charsLt a.data b.data

/-- SQL equality `col = param` where both sides are nullable: comparison with
`NULL` on either side is never satisfied. -/
def sqlEqOpt (a b : Option Int) : Bool :=
  match a, b with
  | some x, some y => x = y
  | _, _ => false

/-- Source `log_action`: `INSERT INTO logs (user_id, action, details)`; the
other columns default (`log_date` to the current timestamp, `log_level` to
`'info'`). -/
def log_action (now : String) (db : DB) (user_id : Option Int)
    (action details : String) : DB :=
  { db with logs := db.logs ++
      [{ log_date := now, log_level := "info", user_id := user_id,
         action := action, details := details }] }

/-- Next AUTOINCREMENT value for `users.id`: one more than the largest id ever
used (all rows are retained in this model, so the maximum over current rows). -/
def nextUserId (db : DB) : Int :=
  (db.users.foldl (fun m u => max m u.id) 0) + 1

/-- Source `create_user`: hashes the password, derives the api key from the
username and the current time, and inserts the row.  The `users` table has
UNIQUE constraints on `username` and `api_key`; a conflicting insert raises
`sqlite3.IntegrityError`, modelled as `none`.  On success returns the new
user's id (`c.lastrowid`) and the new state (including the audit log row). -/
def create_user (hash : String → String) (now : String) (db : DB)
    (username password : String) (email : Option String := none)
    (role : String := "user") (max_connections : Int := 1) : Option (Int × DB) :=
  let hashed_password := hash password
  let api_key := hash (username ++ now)
  if db.users.any (fun u => u.username = username || u.api_key = some api_key) then
    none
  else
    let uid := nextUserId db
    let row : User :=
      { id := uid, username := username, password := hashed_password,
        email := email, role := role, is_active := 1,
        max_connections := max_connections, created_at := now,
        expires_at := none, last_login := none, api_key := some api_key }
    let db1 := { db with users := db.users ++ [row] }
    some (uid, log_action now db1 (some uid) "user_created" ("Created user: " ++ username))

/-- Source `authenticate_user`: `SELECT * FROM users WHERE username = ? AND
password = ? AND is_active = 1`; on a hit, updates `last_login` and logs, and
returns the row as fetched (before the `last_login` update).  Returns the
fetched row (if any) together with the post-call state. -/
def authenticate_user (hash : String → String) (now : String) (db : DB)
    (username password : String) : Option User × DB :=
  let hashed_password := hash password
  match db.users.find? (fun u =>
      u.username = username && u.password = hashed_password && u.is_active = 1) with
  | none => (none, db)
  | some u =>
    let users1 := db.users.map (fun r =>
      if r.id = u.id then { r with last_login := some now } else r)
    let db1 := { db with users := users1 }
    (some u, log_action now db1 (some u.id) "user_login" "User logged in")

/-- Session id `create_session` derives: the hash of
`f"{user_id}{datetime.now()}{client_ip}"`, truncated to 32 characters. -/
def sessionIdFor (hash : String → String) (now : String) (user_id : Int)
    (client_ip : Option String) : String :=
  (hash (toString user_id ++ now ++ optStr client_ip)).take 32

/-- Row `create_session` inserts: `start_time`, `last_active`, `is_active`
and `bytes_sent` take their column defaults. -/
def newSessionRow (hash : String → String) (now : String) (user_id : Int)
    (stream_id : Option Int) (client_ip user_agent : Option String) : Session :=
  { session_id := sessionIdFor hash now user_id client_ip, user_id := user_id,
    stream_id := stream_id, client_ip := client_ip, user_agent := user_agent,
    start_time := now, last_active := now, is_active := 1, bytes_sent := 0 }

/-- Source `create_session`: derives the session id, inserts the row, logs,
and returns the new id with the post-call state.  `session_id` is the
PRIMARY KEY, so inserting a duplicate id raises `sqlite3.IntegrityError`,
modelled as `none`. -/
def create_session (hash : String → String) (now : String) (db : DB)
    (user_id : Int) (stream_id : Option Int := none)
    (client_ip : Option String := none) (user_agent : Option String := none) :
    Option (String × DB) :=
  if db.sessions.any (fun s => s.session_id = sessionIdFor hash now user_id client_ip) then
    none
  else
    some (sessionIdFor hash now user_id client_ip,
      log_action now
        { db with sessions :=
            db.sessions ++ [newSessionRow hash now user_id stream_id client_ip user_agent] }
        (some user_id) "session_created" "New session created")

/-- Source `update_session`: `UPDATE active_sessions SET last_active =
CURRENT_TIMESTAMP, bytes_sent = bytes_sent + ? WHERE session_id = ? AND
is_active = 1`. -/
def update_session (now : String) (db : DB) (session_id : String)
    (bytes_sent : Int := 0) : DB :=
  let sessions1 := db.sessions.map (fun s =>
    if s.session_id = session_id && s.is_active = 1 then
      { s with last_active := now, bytes_sent := s.bytes_sent + bytes_sent }
    else s)
  { db with sessions := sessions1 }

/-- Number of rows of `active_sessions` with this `user_id` and
`is_active = 1`. -/
def activeSessionCount (db : DB) (user_id : Int) : Nat :=
  (db.sessions.filter (fun s => s.user_id = user_id && s.is_active = 1)).length

/-- Source `check_user_connections`: counts this user's active sessions, then
reads `max_connections` (`c.fetchone()[0] or 1`: a missing user row raises
`TypeError`, modelled as `none`; a stored 0 is falsy and becomes 1).  A pure
read: the state is unchanged. -/
def check_user_connections (db : DB) (user_id : Int) : Option (Nat × Int) :=
  match db.users.find? (fun u => u.id = user_id) with
  | none => none
  | some u =>
    let max_connections := if u.max_connections = 0 then 1 else u.max_connections
    some (activeSessionCount db user_id, max_connections)

/-- Next AUTOINCREMENT value for `statistics.stat_id`. -/
def nextStatId (db : DB) : Int :=
  (db.stats.foldl (fun m r => max m r.stat_id) 0) + 1

/-- Predicate of the `SELECT stat_id FROM statistics WHERE stat_date = ? AND
user_id = ? AND stream_id = ?` lookup in `add_statistic`: SQL equality, so a
`NULL` id on either side never matches. -/
def statLookupMatches (today : String) (user_id stream_id : Option Int)
    (r : StatRow) : Bool :=
  r.stat_date = today && sqlEqOpt r.user_id user_id && sqlEqOpt r.stream_id stream_id

/-- Source `add_statistic`: looks up today's row for the (user, stream) key
with SQL equality; if one is found (`fetchone`, i.e. the first in rowid
order), updates it by `stat_id` — adding `viewers` to `total_views`,
`bytes_sent` to `total_bytes`, and raising `peak_viewers` by a max — otherwise
inserts a fresh row initialised from the call's values. -/
def add_statistic (today : String) (db : DB) (user_id : Option Int := none)
    (stream_id : Option Int := none) (bytes_sent : Int := 0)
    (viewers : Int := 0) : DB :=
  match db.stats.find? (statLookupMatches today user_id stream_id) with
  | some existing =>
    let stats1 := db.stats.map (fun r =>
      if r.stat_id = existing.stat_id then
        { r with total_views := r.total_views + viewers,
                 total_bytes := r.total_bytes + bytes_sent,
                 peak_viewers := if viewers > r.peak_viewers then viewers else r.peak_viewers }
      else r)
    { db with stats := stats1 }
  | none =>
    let row : StatRow :=
      { stat_id := nextStatId db, stat_date := today, user_id := user_id,
        stream_id := stream_id, total_views := viewers,
        total_bytes := bytes_sent, peak_viewers := viewers }
    { db with stats := db.stats ++ [row] }

/-- Source `cleanup_old_data`: closes sessions whose `last_active` predates
the cutoff (`now - days` formatted by `datetime`; the already-formatted cutoff
timestamp is taken as an argument here), deletes log rows older than the
cutoff whose level is not `'error'`, and appends its own audit row.  SQLite
compares the timestamp strings lexicographically, as `String <` does for the
ASCII timestamps used. -/
def cleanup_old_data (now cutoff_date : String) (db : DB) (days : Int := 30) : DB :=
  let sessions1 := db.sessions.map (fun s =>
    if strLt s.last_active cutoff_date then { s with is_active := 0 } else s)
  let logs1 := db.logs.filter (fun l =>
    !(strLt l.log_date cutoff_date && l.log_level ≠ "error"))
  let db1 := { db with sessions := sessions1, logs := logs1 }
  log_action now db1 none "cleanup" ("Cleaned up data older than " ++ toString days ++ " days")

/-- Joined `c.category_name` of the playlist query's `LEFT JOIN categories c
ON ls.category_id = c.category_id` (`category_id` is the categories PRIMARY
KEY, so at most one row joins; a `NULL` foreign key joins nothing). -/
def joinedCategoryName (db : DB) (s : LiveStream) : Option String :=
  match s.category_id with
  | none => none
  | some cid => (db.categories.find? (fun c => c.category_id = cid)).map
      (fun c => c.category_name)

/-- Boolean `≤` on the `ORDER BY c.category_name, ls.stream_name` sort key:
SQLite sorts `NULL` first ascending, and compares TEXT bytewise, which agrees
with Lean's `String` order on the ASCII data involved. -/
def orderKeyLe (a b : Option String × String) : Bool :=
  match a.1, b.1 with
  | none, none => a.2 == b.2 || strLt a.2 b.2
  | none, some _ => true
  | some _, none => false
  | some x, some y =>
    if x = y then a.2 == b.2 || strLt a.2 b.2
    else strLt x y

/-- Insertion step of the sort used to model the SQL `ORDER BY`. -/
def insertLe {α : Type} (le : α → α → Bool) (x : α) : List α → List α
  | [] => [x]
  | y :: ys => if le x y then x :: y :: ys else y :: insertLe le x ys

/-- Insertion sort used to model the SQL `ORDER BY` (any order consistent
with the key is a faithful model; SQLite fixes no order on equal keys). -/
def sortLe {α : Type} (le : α → α → Bool) : List α → List α
  | [] => []
  | x :: xs => insertLe le x (sortLe le xs)

/-- Playlist rows for a user: `WHERE ls.user_id = ? AND ls.is_active = 1`
then `ORDER BY c.category_name, ls.stream_name`.  `dict(row)` maps the
duplicated `category_name` column name to the first occurrence, i.e. the
stream's own `ls.category_name`, so only the sort key uses the joined name. -/
def playlistRows (db : DB) (user_id : Int) : List LiveStream :=
  (sortLe (fun a b => orderKeyLe (a.1, a.2.stream_name) (b.1, b.2.stream_name))
    ((db.streams.filter (fun s => s.user_id = some user_id && s.is_active = 1)).map
      (fun s => (joinedCategoryName db s, s)))).map
    (fun p : Option String × LiveStream => p.2)

/-- Entry block the playlist loop appends for one stream: the `#EXTINF` line
built from `tvg-id` (`epg_channel_id or stream_name`), `tvg-name`,
`tvg-logo`, `group-title`, followed by the URL line (`proxy_url` when the
requested output format is `"ts"`, else `stream_url`).  No escaping of the
interpolated fields is performed. -/
def m3uEntry (output_format : String) (s : LiveStream) : String :=
  "#EXTINF:-1 tvg-id=\"" ++ pyOrStr s.epg_channel_id s.stream_name ++ "\" " ++
  "tvg-name=\"" ++ s.stream_name ++ "\" " ++
  "tvg-logo=\"" ++ optStr s.stream_icon ++ "\" " ++
  "group-title=\"" ++ optStr s.category_name ++ "\"," ++ s.stream_name ++ "\n" ++
  (if output_format = "ts" then optStr s.proxy_url else s.stream_url) ++ "\n"

/-- Group marker block the playlist loop appends when `category_name`
changes from the running `current_category`. -/
def m3uGroupMarker (category_name : Option String) : String :=
  "\n#EXTINF:-1 group-title=\"" ++ optStr category_name ++ "\"," ++
  optStr category_name ++ "\n" ++ "#EXTVLCOPT:network-caching=1000\n"

/-- Source playlist loop: walks the ordered rows carrying `current_category`
(a Python `str` initially `""`, later possibly `None`, hence
`Option String` with `some ""` at the start), emitting a group marker
exactly when the row's `category_name` differs from it. -/
def m3uBody (output_format : String) : List LiveStream → Option String → String
  | [], _ => ""
  | s :: rest, current_category =>
    if s.category_name ≠ current_category then
      m3uGroupMarker s.category_name ++ m3uEntry output_format s ++
        m3uBody output_format rest s.category_name
    else
      m3uEntry output_format s ++ m3uBody output_format rest current_category

/-- Source `generate_m3u_playlist`: header lines, then the grouped entry
blocks over the user's active streams in `ORDER BY` order. -/
def generate_m3u_playlist (now : String) (db : DB) (user_id : Int)
    (output_format : String := "ts") : String :=
  "#EXTM3U\n" ++ "# Generated: " ++ now ++ "\n" ++
  "# User ID: " ++ toString user_id ++ "\n\n" ++
  m3uBody output_format (playlistRows db user_id) (some "")

/-- Number of occurrences of `pat` as a (contiguous) substring of `s`,
counted over character positions. -/
def countOcc (pat : List Char) : List Char → Nat
  | [] => 0
  | c :: rest => (if pat.isPrefixOf (c :: rest) then 1 else 0) + countOcc pat rest

end IPTV

namespace Xtream

/-- Row of the `users_xtream` table of `src/core/server.py` (tuple columns in
schema order: id, username, password, is_active, max_connections, created_at,
expires_at, total_streams). -/
structure SUser where
  id : Int
  username : String
  password : String
  is_active : Int := 1
  max_connections : Int := 1
  created_at : String := ""
  expires_at : Option String := none
  total_streams : Int := 0
  deriving Repr, DecidableEq

/-- Row of the `categories_xtream` table. -/
structure SCategory where
  category_id : Int
  category_name : String
  parent_id : Int := 0
  deriving Repr, DecidableEq

/-- State of the Xtream server database (the `streams_xtream` table is only
referenced by the `get_live_streams` / `get_vod_*` methods, which are absent
from the class, so it is not needed here). -/
structure SDB where
  users : List SUser := []
  categories : List SCategory := []
  deriving Repr, DecidableEq

/-- One JSON body `XtreamCodesServer` can serialize, one constructor per
`json.dumps` site.  `userInfo` is the positive `auth: 1` envelope of
`get_user_info` (its varying fields; `password` is always the masked
`"********"`, `auth` is `1`, `status` `"Active"`).  `authFail` is
`{"user_info": {"auth": 0}}`.  `attrErrorMissing` records that
`handle_api_request` called a method the class does not define
(`get_live_streams`, `get_vod_categories`, `get_vod_streams`), which raises
`AttributeError` and surfaces as the generic error reply of
`handle_request`. -/
inductive ApiResponse where
  | authFail
  | userInfo (username exp_date created_at : String) (max_connections : Int)
  | liveCategories (cats : List (Int × String))
  | attrErrorMissing (method : String)
  deriving Repr, DecidableEq

/-- Source `XtreamCodesServer.authenticate_user`: `SELECT * FROM users_xtream
WHERE username=? AND password=? AND is_active=1` with the md5 hex digest of
the supplied password (the hash is abstracted as a function argument). -/
def authenticate_user (md5 : String → String) (db : SDB)
    (username password : String) : Option SUser :=
  let hashed_pass := md5 password
  db.users.find? (fun u =>
    u.username = username && u.password = hashed_pass && u.is_active = 1)

/-- Source `XtreamCodesServer.get_user_info`: re-reads the row by username
only; on a hit returns the positive envelope (`exp_date` falls back to
`"2099-12-31"` under Python `or` when `expires_at` is `NULL` or empty),
otherwise the `auth: 0` envelope. -/
def get_user_info (db : SDB) (username : String) : ApiResponse :=
  match db.users.find? (fun u => u.username = username) with
  | some u =>
    .userInfo u.username (IPTV.pyOrStr u.expires_at "2099-12-31") u.created_at
      u.max_connections
  | none => .authFail

/-- Source `XtreamCodesServer.get_live_categories`: `SELECT category_id,
category_name FROM categories_xtream WHERE parent_id=1`. -/
def get_live_categories (db : SDB) : List (Int × String) :=
  (db.categories.filter (fun c => c.parent_id = 1)).map
    (fun c => (c.category_id, c.category_name))

/-- Source `XtreamCodesServer.handle_api_request`: authenticates first
(missing query parameters default to `""`), answering `{"user_info":
{"auth": 0}}` on failure; then dispatches on `action`, any unrecognised or
absent action falling through to `get_user_info`.  The three dispatch targets
the class never defines are modelled by `attrErrorMissing`. -/
def handle_api_request (md5 : String → String) (db : SDB)
    (action username password : String) : ApiResponse :=
  match authenticate_user md5 db username password with
  | none => .authFail
  | some _ =>
    if action = "get_live_categories" then .liveCategories (get_live_categories db)
    else if action = "get_live_streams" then .attrErrorMissing "get_live_streams"
    else if action = "get_vod_categories" then .attrErrorMissing "get_vod_categories"
    else if action = "get_vod_streams" then .attrErrorMissing "get_vod_streams"
    else get_user_info db username

/-- The four action values `handle_api_request` dispatches on explicitly. -/
def knownActions : List String :=
  ["get_live_categories", "get_live_streams", "get_vod_categories", "get_vod_streams"]

end Xtream

namespace IPTV

/-- One call to `add_statistic` (its arguments; `today` is the
`datetime.now()` date the call formats). -/
structure StatCall where
  today : String
  user_id : Option Int := none
  stream_id : Option Int := none
  bytes_sent : Int := 0
  viewers : Int := 0

/-- Replay of a sequence of `add_statistic` calls, oldest first. -/
def applyStats (calls : List StatCall) (db : DB) : DB :=
  calls.foldl (fun d c => add_statistic c.today d c.user_id c.stream_id c.bytes_sent c.viewers) db

/-- The key-uniqueness invariant of the `statistics` table claimed by the
spec, restricted to keys whose subscriber and stream ids are both present:
at most one row per (date, subscriber, stream). -/
def statKeyUnique (db : DB) : Prop :=
  ∀ (d : String) (u s : Int),
    (db.stats.filter (fun r =>
      r.stat_date = d && r.user_id = some u && r.stream_id = some s)).length ≤ 1

/-- Number of `statistics` rows carrying exactly this (date, subscriber,
stream) key, nullable ids included. -/
def statRowsForKey (db : DB) (d : String) (u s : Option Int) : Nat :=
  (db.stats.filter (fun r =>
    r.stat_date = d && r.user_id = u && r.stream_id = s)).length

/-- One session-touching operation of the core, with the call data the
source reads from the clock/request: `update` is `update_session`
(`reportActivity`), `cleanup` is `cleanup_old_data` (`reapStale`),
`admitCreate` is `create_session` (a failed PRIMARY KEY insert leaves the
state unchanged), and `admitCheck` is the read-only
`check_user_connections`. -/
inductive CoreOp where
  | update (session_id : String) (bytes_sent : Int) (now : String)
  | cleanup (now cutoff_date : String) (days : Int)
  | admitCreate (user_id : Int) (stream_id : Option Int)
      (client_ip user_agent : Option String) (now : String)
  | admitCheck (user_id : Int)

/-- State transition of one `CoreOp`. -/
def applyCoreOp (hash : String → String) (op : CoreOp) (db : DB) : DB :=
  match op with
  | .update sid b now => update_session now db sid b
  | .cleanup now cutoff days => cleanup_old_data now cutoff db days
  | .admitCreate uid st ip ua now =>
    match create_session hash now db uid st ip ua with
    | some (_, db1) => db1
    | none => db
  | .admitCheck _ => db

/-- Row of `active_sessions` with this session id (the PRIMARY KEY), if any. -/
def findSession (db : DB) (session_id : String) : Option Session :=
  db.sessions.find? (fun s => s.session_id = session_id)

/-- Stand-in digest function used to instantiate the abstract hash in the
concrete scenarios below (the code only compares digests for equality). -/
def demoHash : String → String := fun s => "H#" ++ s

/-- Subscriber `demo` with concurrency cap 1, and no sessions: the initial
state of the capacity-race scenario. -/
def capDB : DB :=
  { users := [{ id := 1, username := "demo", password := demoHash "demo123",
                max_connections := 1 }] }

/-- State after the first of the two racing admissions inserts its session
(the second admission's capacity read has already happened on `capDB`). -/
def capDB1 : DB :=
  match create_session demoHash "2025-01-01 10:00:00" capDB 1 none (some "ipA") none with
  | some (_, db1) => db1
  | none => capDB

/-- State after the second racing admission also inserts its session. -/
def capDB2 : DB :=
  match create_session demoHash "2025-01-01 10:00:01" capDB1 1 none (some "ipB") none with
  | some (_, db1) => db1
  | none => capDB1

/-- Subscriber `alice`, active, correct credential hash stored, whose
`expires_at` lies in the past. -/
def expiredUser : User :=
  { id := 2, username := "alice", password := demoHash "pw123",
    is_active := 1, expires_at := some "2020-01-01 00:00:00" }

/-- Store containing only the expired subscriber. -/
def expiredDB : DB := { users := [expiredUser] }

/-- Xtream server store with the stock `demo` subscriber (as inserted by
`add_default_data`: md5-hashed password, `is_active` 1). -/
def xtreamDemoDB : Xtream.SDB :=
  { users := [{ id := 1, username := "demo", password := demoHash "demo",
                created_at := "2023-01-01 00:00:00" }] }

/-- Store with subscriber `bob` (for the authentication-indistinguishability
witness). -/
def bobDB : DB :=
  { users := [{ id := 3, username := "bob", password := demoHash "secret" }] }

/-- Closed (terminal) session of subscriber 4: `is_active = 0`. -/
def closedSession : Session :=
  { session_id := "sess-closed", user_id := 4,
    start_time := "2025-01-01 09:00:00",
    last_active := "2025-01-01 09:30:00",
    is_active := 0, bytes_sent := 42 }

/-- Store holding only the closed session and its owner. -/
def closedSessionDB : DB :=
  { users := [{ id := 4, username := "carol", password := demoHash "pw" }],
    sessions := [closedSession] }

/-- Streams of subscriber 7: X and Y in category catA, Z in catB, listed in
scrambled insertion order so the `ORDER BY` does the arranging. -/
def c6DB : DB :=
  { categories := [{ category_id := 1, category_name := "catA" },
                   { category_id := 2, category_name := "catB" }],
    streams :=
      [{ stream_id := 3, stream_name := "Z", stream_url := "http://origin/z",
         category_id := some 2, category_name := some "catB",
         stream_icon := some "iconZ", epg_channel_id := some "epgZ",
         user_id := some 7, proxy_url := some "http://proxy/z" },
       { stream_id := 2, stream_name := "Y", stream_url := "http://origin/y",
         category_id := some 1, category_name := some "catA",
         stream_icon := some "iconY", epg_channel_id := some "epgY",
         user_id := some 7, proxy_url := some "http://proxy/y" },
       { stream_id := 1, stream_name := "X", stream_url := "http://origin/x",
         category_id := some 1, category_name := some "catA",
         stream_icon := some "iconX", epg_channel_id := some "epgX",
         user_id := some 7, proxy_url := some "http://proxy/x" }] }

/-- Subscriber 8 owns one stream whose display name contains a double quote. -/
def quoteDB : DB :=
  { categories := [{ category_id := 1, category_name := "News" }],
    streams :=
      [{ stream_id := 1, stream_name := "Bad\"Name", stream_url := "http://origin/q",
         category_id := some 1, category_name := some "News",
         stream_icon := some "icon", epg_channel_id := some "epg1",
         user_id := some 8, proxy_url := some "http://proxy/q" }] }

end IPTV

set_option maxRecDepth 16000 in
/-- Claim C1: the code violates the capacity invariant.  Each `IPTVDatabase`
method is one lock section, but an admission is two of them
(`check_user_connections`, then `create_session`, which itself never
re-checks the cap), so two admissions can interleave as
check(A), check(B), create(A), create(B).  For subscriber `demo` with cap 1
and no sessions, both checks read 0 active connections (under the cap of 1),
both create, and the resulting state `capDB2` holds 2 active sessions — a
state any further operation observes — exceeding `max_connections = 1`. -/
theorem c1_capacity_cap_exceeded_by_race :
    IPTV.check_user_connections IPTV.capDB 1 = some (0, 1) ∧
    IPTV.activeSessionCount IPTV.capDB 1 < 1 ∧
    IPTV.check_user_connections IPTV.capDB2 1 = some (2, 1) ∧
    ¬(IPTV.activeSessionCount IPTV.capDB2 1 ≤ 1) := by
  decide

/-- Claim C2: the code does not enforce expiry.  `authenticate_user` filters
only on `username`, `password` and `is_active = 1` and never reads
`expires_at`, so subscriber `alice`, whose `expires_at`
(`2020-01-01 00:00:00`) predates the current time (`2025-06-01 00:00:00` in
SQLite's text order), still authenticates successfully with her correct
credentials instead of receiving the negative result the claim requires. -/
theorem c2_expired_subscriber_authenticates :
    IPTV.expiredUser.expires_at = some "2020-01-01 00:00:00" ∧
    IPTV.strLt "2020-01-01 00:00:00" "2025-06-01 00:00:00" = true ∧
    IPTV.expiredUser.is_active = 1 ∧
    (IPTV.authenticate_user IPTV.demoHash "2025-06-01 00:00:00" IPTV.expiredDB
      "alice" "pw123").1 = some IPTV.expiredUser := by
  decide

/-- Claim C3 counterexample: for the request `action=bogus` (not a known
action and not absent) with valid credentials of the stock `demo` user,
`handle_api_request` falls through to `get_user_info` and answers the
positive `auth: 1` user-info envelope, not the `{"user_info": {"auth": 0}}`
envelope the claim requires. -/
theorem c3_unknown_action_positive_user_info :
    "bogus" ∉ Xtream.knownActions ∧ "bogus" ≠ "" ∧
    Xtream.handle_api_request IPTV.demoHash IPTV.xtreamDemoDB "bogus" "demo" "demo" =
      Xtream.ApiResponse.userInfo "demo" "2099-12-31" "2023-01-01 00:00:00" 1 ∧
    Xtream.ApiResponse.userInfo "demo" "2099-12-31" "2023-01-01 00:00:00" 1 ≠
      Xtream.ApiResponse.authFail := by
  decide

/-- Claim C5 counterexample: with a NULL subscriber id the `add_statistic`
lookup `WHERE ... user_id = ?` can never match (SQL `NULL` equality), so two
calls for the same (date, NULL subscriber, stream 9) key insert two rows for
that key, violating the at-most-one-row claim, which explicitly includes
NULL ids. -/
theorem c5_null_key_duplicates :
    IPTV.statRowsForKey
        (IPTV.applyStats [{ today := "2025-01-02", stream_id := some 9, viewers := 1 },
                          { today := "2025-01-02", stream_id := some 9, viewers := 1 }] {})
        "2025-01-02" none (some 9) = 2 ∧
    ¬(IPTV.statRowsForKey
        (IPTV.applyStats [{ today := "2025-01-02", stream_id := some 9, viewers := 1 },
                          { today := "2025-01-02", stream_id := some 9, viewers := 1 }] {})
        "2025-01-02" none (some 9) ≤ 1) := by
  decide

set_option maxRecDepth 16000 in
/-- Claim C6: for subscriber 7 owning exactly the active live streams
(catA, X), (catA, Y), (catB, Z) — stored in scrambled order — the generated
playlist is exactly the header followed by one catA group marker, the X and
Y entries, one catB group marker, and the Z entry, in (category name, stream
name) order; each group-marker block occurs exactly once, i.e. exactly where
the category changes between consecutive sorted entries. -/
theorem c6_playlist_grouping :
    IPTV.generate_m3u_playlist "2025-01-01 10:00:00" IPTV.c6DB 7 "ts" =
      "#EXTM3U\n# Generated: 2025-01-01 10:00:00\n# User ID: 7\n\n" ++
      "\n#EXTINF:-1 group-title=\"catA\",catA\n#EXTVLCOPT:network-caching=1000\n" ++
      "#EXTINF:-1 tvg-id=\"epgX\" tvg-name=\"X\" tvg-logo=\"iconX\" group-title=\"catA\",X\n" ++
      "http://proxy/x\n" ++
      "#EXTINF:-1 tvg-id=\"epgY\" tvg-name=\"Y\" tvg-logo=\"iconY\" group-title=\"catA\",Y\n" ++
      "http://proxy/y\n" ++
      "\n#EXTINF:-1 group-title=\"catB\",catB\n#EXTVLCOPT:network-caching=1000\n" ++
      "#EXTINF:-1 tvg-id=\"epgZ\" tvg-name=\"Z\" tvg-logo=\"iconZ\" group-title=\"catB\",Z\n" ++
      "http://proxy/z\n" ∧
    IPTV.countOcc (IPTV.m3uGroupMarker (some "catA")).data
      (IPTV.generate_m3u_playlist "2025-01-01 10:00:00" IPTV.c6DB 7 "ts").data = 1 ∧
    IPTV.countOcc (IPTV.m3uGroupMarker (some "catB")).data
      (IPTV.generate_m3u_playlist "2025-01-01 10:00:00" IPTV.c6DB 7 "ts").data = 1 := by
  decide

set_option maxRecDepth 16000 in
/-- Claim C7: the code performs no escaping.  The playlist entry for a
stream whose display name contains a double quote embeds the quote verbatim
inside the quoted `tvg-name` attribute: the broken run
`tvg-name="Bad"Name"` appears in the generated document, so the generator
neither escapes nor rejects the grammar-breaking character. -/
theorem c7_unescaped_quote_in_playlist :
    ('\"' ∈ "Bad\"Name".data) ∧
    IPTV.countOcc ("tvg-name=\"Bad\"Name\"").data
      (IPTV.generate_m3u_playlist "2025-01-01 10:00:00" IPTV.quoteDB 8 "ts").data = 1 := by
  decide

namespace IPTV

/-- Helper: a fold of max over stat ids is at least its initial value. -/
theorem foldl_max_init_le (l : List StatRow) (i : Int) :
    i ≤ l.foldl (fun m x => max m x.stat_id) i := by
  induction l generalizing i with
  | nil => simp
  | cons x xs ih => exact le_trans (le_max_left i x.stat_id) (ih (max i x.stat_id))

/-- Helper: a fold of max over stat ids bounds every member's id. -/
theorem statId_le_foldl_max (l : List StatRow) (i : Int) :
    ∀ r ∈ l, r.stat_id ≤ l.foldl (fun m x => max m x.stat_id) i := by
  induction l generalizing i with
  | nil => simp
  | cons x xs ih =>
    intro r hr
    rcases List.mem_cons.mp hr with rfl | hr
    · exact le_trans (le_max_right i r.stat_id) (foldl_max_init_le xs (max i r.stat_id))
    · exact ih (max i x.stat_id) r hr

/-- Helper: the AUTOINCREMENT id of a fresh statistics row is strictly larger
than every existing row's id. -/
theorem statId_lt_nextStatId (db : DB) : ∀ r ∈ db.stats, r.stat_id < nextStatId db := by
  intro r hr
  have h := statId_le_foldl_max db.stats 0 r hr
  unfold nextStatId
  omega

/-- Helper: when no row matches the key, `add_statistic` appends a fresh row
initialised from the call. -/
theorem add_statistic_no_match (today : String) (db : DB) (u s : Option Int) (b v : Int)
    (h : db.stats.find? (statLookupMatches today u s) = none) :
    add_statistic today db u s b v =
      { db with stats := db.stats ++
        [{ stat_id := nextStatId db, stat_date := today, user_id := u, stream_id := s,
           total_views := v, total_bytes := b, peak_viewers := v }] } := by
  unfold add_statistic
  rw [h]

/-- Helper: when a row matches the key, `add_statistic` updates the row with
the found `stat_id` in place. -/
theorem add_statistic_match (today : String) (db : DB) (u s : Option Int) (b v : Int)
    (e : StatRow) (h : db.stats.find? (statLookupMatches today u s) = some e) :
    add_statistic today db u s b v =
      { db with stats := db.stats.map (fun r =>
          if r.stat_id = e.stat_id then
            { r with total_views := r.total_views + v, total_bytes := r.total_bytes + b,
                     peak_viewers := if v > r.peak_viewers then v else r.peak_viewers }
          else r) } := by
  unfold add_statistic
  rw [h]

/-- Helper: when the matching row sits last and no earlier row matches or
shares its id, the update rewrites exactly that row. -/
theorem add_statistic_match_last (today : String) (db : DB) (u s : Option Int) (b v : Int)
    (l : List StatRow) (r0 : StatRow)
    (hstats : db.stats = l ++ [r0])
    (hl : ∀ x ∈ l, statLookupMatches today u s x = false)
    (hr0 : statLookupMatches today u s r0 = true)
    (hid : ∀ x ∈ l, x.stat_id ≠ r0.stat_id) :
    add_statistic today db u s b v =
      { db with stats := l ++
        [{ r0 with total_views := r0.total_views + v,
                   total_bytes := r0.total_bytes + b,
                   peak_viewers := if v > r0.peak_viewers then v else r0.peak_viewers }] } := by
  have hfl : l.find? (statLookupMatches today u s) = none :=
    List.find?_eq_none.mpr (fun x hx => by simp [hl x hx])
  have hfind : db.stats.find? (statLookupMatches today u s) = some r0 := by
    rw [hstats, List.find?_append, hfl, List.find?_cons_of_pos _ hr0]
    rfl
  unfold add_statistic
  rw [hfind, hstats]
  have hmapl : l.map (fun r =>
      if r.stat_id = r0.stat_id then
        { r with total_views := r.total_views + v, total_bytes := r.total_bytes + b,
                 peak_viewers := if v > r.peak_viewers then v else r.peak_viewers }
      else r) = l := by
    have := List.map_congr_left (l := l)
      (f := fun r : StatRow =>
        if r.stat_id = r0.stat_id then
          { r with total_views := r.total_views + v, total_bytes := r.total_bytes + b,
                   peak_viewers := if v > r.peak_viewers then v else r.peak_viewers }
        else r)
      (g := id) (fun x hx => by simp [hid x hx])
    simpa using this
  simp [List.map_append, hmapl]

/-- Helper: for a key with both ids present, the SQL lookup predicate
coincides with plain field equality. -/
theorem statLookupMatches_present (d : String) (u s : Int) (x : StatRow) :
    statLookupMatches d (some u) (some s) x =
      (x.stat_date = d && x.user_id = some u && x.stream_id = some s) := by
  unfold statLookupMatches
  cases hx : x.user_id <;> cases hy : x.stream_id <;> simp [sqlEqOpt]

/-- Helper: one `add_statistic` call preserves uniqueness of fully-present
keys: an update rewrites counters of one row without touching any key, and an
insert only happens when its own key had no row. -/
theorem add_statistic_preserves_statKeyUnique (today : String) (us ss : Option Int)
    (b v : Int) (db : DB) (h : statKeyUnique db) :
    statKeyUnique (add_statistic today db us ss b v) := by
  intro d uu sk
  cases hf : db.stats.find? (statLookupMatches today us ss) with
  | some e =>
    rw [add_statistic_match today db us ss b v e hf]
    simp only []
    rw [← List.countP_eq_length_filter, List.countP_map]
    have hcongr : List.countP
        ((fun r : StatRow => r.stat_date = d && r.user_id = some uu && r.stream_id = some sk) ∘
          (fun r : StatRow =>
            if r.stat_id = e.stat_id then
              { r with total_views := r.total_views + v, total_bytes := r.total_bytes + b,
                       peak_viewers := if v > r.peak_viewers then v else r.peak_viewers }
            else r)) db.stats =
        List.countP
          (fun r : StatRow => r.stat_date = d && r.user_id = some uu && r.stream_id = some sk)
          db.stats := by
      refine List.countP_congr (fun x _ => ?_)
      by_cases hc : x.stat_id = e.stat_id <;> simp [hc]
    rw [hcongr, List.countP_eq_length_filter]
    exact h d uu sk
  | none =>
    rw [add_statistic_no_match today db us ss b v hf]
    simp only []
    rw [List.filter_append]
    set row : StatRow :=
      { stat_id := nextStatId db, stat_date := today, user_id := us, stream_id := ss,
        total_views := v, total_bytes := b, peak_viewers := v } with hrow
    cases hp : (fun r : StatRow =>
        r.stat_date = d && r.user_id = some uu && r.stream_id = some sk) row with
    | false =>
      rw [List.length_append]
      have : List.filter
          (fun r : StatRow => r.stat_date = d && r.user_id = some uu && r.stream_id = some sk)
          [row] = [] := by
        simp only [List.filter, hp]
      rw [this]
      simpa using h d uu sk
    | true =>
      have hfields : today = d ∧ us = some uu ∧ ss = some sk := by
        have := hp
        simp [hrow] at this
        tauto
      obtain ⟨hd, hu, hs⟩ := hfields
      have hold : List.filter
          (fun r : StatRow => r.stat_date = d && r.user_id = some uu && r.stream_id = some sk)
          db.stats = [] := by
        rw [List.filter_eq_nil_iff]
        intro a ha
        have hnone := List.find?_eq_none.mp hf a ha
        rw [hd, hu, hs] at hnone
        rw [statLookupMatches_present] at hnone
        simpa using hnone
      rw [hold]
      simp [List.filter, hp]

/-- Helper: moving a session-id-preserving function through the session
lookup. -/
theorem find?_map_session_id (g : Session → Session)
    (hg : ∀ r, (g r).session_id = r.session_id) (l : List Session) (sid : String) :
    (l.map g).find? (fun r => r.session_id = sid) =
      (l.find? (fun r => r.session_id = sid)).map g := by
  have hp : ((fun r : Session => decide (r.session_id = sid)) ∘ g) =
      (fun r : Session => decide (r.session_id = sid)) :=
    funext (fun r => by simp [Function.comp, hg r])
  rw [List.find?_map, hp]

/-- Helper: the two outcomes of `create_session`, spelled out. -/
theorem create_session_spec (hash : String → String) (now : String) (db : DB)
    (uid : Int) (st : Option Int) (ip ua : Option String) :
    create_session hash now db uid st ip ua = none ∨
    create_session hash now db uid st ip ua =
      some (sessionIdFor hash now uid ip,
        log_action now
          { db with sessions := db.sessions ++ [newSessionRow hash now uid st ip ua] }
          (some uid) "session_created" "New session created") := by
  unfold create_session
  split
  · exact Or.inl rfl
  · exact Or.inr rfl

/-- Helper: an admission step leaves the existing session rows in place,
at most appending a new one. -/
theorem sessions_after_admitCreate (hash : String → String) (now : String) (db : DB)
    (uid : Int) (st : Option Int) (ip ua : Option String) :
    ∃ tail, (applyCoreOp hash (.admitCreate uid st ip ua now) db).sessions =
      db.sessions ++ tail := by
  rcases create_session_spec hash now db uid st ip ua with h | h
  · simp only [applyCoreOp, h]
    exact ⟨[], by simp⟩
  · simp only [applyCoreOp, h]
    exact ⟨_, rfl⟩

end IPTV

/-- Claim C4: starting from a store with no statistics row for the given
(date, subscriber, stream) key, three `add_statistic` calls on the same day
with viewers 3, 7 and 2 (and arbitrary byte counts) leave the table extended
by exactly one row for that key, whose `peak_viewers` is 7 (merged by max)
and whose `total_views` is 12 (merged by sum). -/
theorem c4_stat_merge_3_7_2 (d : String) (u s : Int) (b1 b2 b3 : Int) (db : IPTV.DB)
    (h : ∀ r ∈ db.stats, IPTV.statLookupMatches d (some u) (some s) r = false) :
    ∃ row : IPTV.StatRow,
      (IPTV.applyStats
        [{ today := d, user_id := some u, stream_id := some s, bytes_sent := b1, viewers := 3 },
         { today := d, user_id := some u, stream_id := some s, bytes_sent := b2, viewers := 7 },
         { today := d, user_id := some u, stream_id := some s, bytes_sent := b3, viewers := 2 }]
        db).stats = db.stats ++ [row] ∧
      row.peak_viewers = 7 ∧ row.total_views = 12 := by
  have h0 : db.stats.find? (IPTV.statLookupMatches d (some u) (some s)) = none :=
    List.find?_eq_none.mpr (fun x hx => by simp [h x hx])
  have e1 := IPTV.add_statistic_no_match d db (some u) (some s) b1 3 h0
  set r0 : IPTV.StatRow :=
    { stat_id := IPTV.nextStatId db, stat_date := d, user_id := some u, stream_id := some s,
      total_views := 3, total_bytes := b1, peak_viewers := 3 } with hr0def
  set db1 : IPTV.DB := { db with stats := db.stats ++ [r0] } with hdb1def
  have hmatch0 : IPTV.statLookupMatches d (some u) (some s) r0 = true := by
    simp [IPTV.statLookupMatches, IPTV.sqlEqOpt, hr0def]
  have hid : ∀ x ∈ db.stats, x.stat_id ≠ r0.stat_id := by
    intro x hx
    have := IPTV.statId_lt_nextStatId db x hx
    simp only [hr0def]
    omega
  have e2 := IPTV.add_statistic_match_last d db1 (some u) (some s) b2 7 db.stats r0 rfl h
    hmatch0 hid
  set r1 : IPTV.StatRow :=
    { r0 with total_views := r0.total_views + 7, total_bytes := r0.total_bytes + b2,
              peak_viewers := if 7 > r0.peak_viewers then 7 else r0.peak_viewers } with hr1def
  set db2 : IPTV.DB := { db1 with stats := db.stats ++ [r1] } with hdb2def
  have hmatch1 : IPTV.statLookupMatches d (some u) (some s) r1 = true := by
    simp [IPTV.statLookupMatches, IPTV.sqlEqOpt, hr1def, hr0def]
  have hid1 : ∀ x ∈ db.stats, x.stat_id ≠ r1.stat_id := by
    intro x hx
    have := IPTV.statId_lt_nextStatId db x hx
    simp only [hr1def, hr0def]
    omega
  have e3 := IPTV.add_statistic_match_last d db2 (some u) (some s) b3 2 db.stats r1 rfl h
    hmatch1 hid1
  set r2 : IPTV.StatRow :=
    { r1 with total_views := r1.total_views + 2, total_bytes := r1.total_bytes + b3,
              peak_viewers := if 2 > r1.peak_viewers then 2 else r1.peak_viewers } with hr2def
  refine ⟨r2, ?_, ?_, ?_⟩
  · show (IPTV.add_statistic d
      (IPTV.add_statistic d (IPTV.add_statistic d db (some u) (some s) b1 3)
        (some u) (some s) b2 7)
      (some u) (some s) b3 2).stats = _
    rw [e1, e2, e3]
  · simp [hr2def, hr1def, hr0def]
  · simp [hr2def, hr1def, hr0def]

/-- Claim C4 witness: the three merge calls on the empty store produce the
single row with peak 7 and total views 12. -/
theorem c4_stat_merge_3_7_2_witness :
    (∀ r ∈ ({} : IPTV.DB).stats,
      IPTV.statLookupMatches "2025-01-02" (some 5) (some 9) r = false) ∧
    ∃ row : IPTV.StatRow,
      (IPTV.applyStats
        [{ today := "2025-01-02", user_id := some 5, stream_id := some 9,
           bytes_sent := 100, viewers := 3 },
         { today := "2025-01-02", user_id := some 5, stream_id := some 9,
           bytes_sent := 200, viewers := 7 },
         { today := "2025-01-02", user_id := some 5, stream_id := some 9,
           bytes_sent := 50, viewers := 2 }]
        ({} : IPTV.DB)).stats = ({} : IPTV.DB).stats ++ [row] ∧
      row.peak_viewers = 7 ∧ row.total_views = 12 :=
  ⟨by simp, c4_stat_merge_3_7_2 "2025-01-02" 5 9 100 200 50 {} (by simp)⟩

/-- Claim C5, amended: after any sequence of `add_statistic` calls the table
holds at most one row per (date, subscriber, stream) key **whose subscriber
and stream ids are both present**, provided that held initially.  (The claim
as frozen also covers NULL ids, where it fails — see the counterexample.) -/
theorem c5_present_key_unique_preserved (calls : List IPTV.StatCall) (db : IPTV.DB)
    (h : IPTV.statKeyUnique db) : IPTV.statKeyUnique (IPTV.applyStats calls db) := by
  induction calls generalizing db with
  | nil => exact h
  | cons c cs ih =>
    exact ih _ (IPTV.add_statistic_preserves_statKeyUnique c.today c.user_id c.stream_id
      c.bytes_sent c.viewers db h)

/-- Claim C5 witness: replaying two merge calls for the same present key on
the empty store keeps every present key at one row. -/
theorem c5_present_key_unique_preserved_witness :
    IPTV.statKeyUnique ({} : IPTV.DB) ∧
    IPTV.statKeyUnique (IPTV.applyStats
      [{ today := "2025-01-02", user_id := some 5, stream_id := some 9,
         bytes_sent := 10, viewers := 1 },
       { today := "2025-01-02", user_id := some 5, stream_id := some 9,
         bytes_sent := 20, viewers := 4 }] ({} : IPTV.DB)) :=
  ⟨fun d u s => by simp [IPTV.statKeyUnique],
   c5_present_key_unique_preserved _ {} (fun d u s => by simp [IPTV.statKeyUnique])⟩

/-- Claim C8: a failed authentication with an existing username but a wrong
password and a failed authentication with a username absent from the store
return the very same result — `None` with the store unchanged — so the reply
leaks nothing about whether the username exists. -/
theorem c8_auth_negative_indistinguishable (hash : String → String) (now : String)
    (db : IPTV.DB) (realuser wrongpass nouser anypass : String)
    (hexists : ∃ r ∈ db.users, r.username = realuser)
    (hwrong : ∀ r ∈ db.users, r.username = realuser → r.password ≠ hash wrongpass)
    (hnouser : ∀ r ∈ db.users, r.username ≠ nouser) :
    IPTV.authenticate_user hash now db realuser wrongpass =
      IPTV.authenticate_user hash now db nouser anypass ∧
    IPTV.authenticate_user hash now db realuser wrongpass = (none, db) := by
  have h1 : db.users.find? (fun u =>
      u.username = realuser && u.password = hash wrongpass && u.is_active = 1) = none := by
    refine List.find?_eq_none.mpr (fun x hx => ?_)
    by_cases hu : x.username = realuser
    · simp [hu, hwrong x hx hu]
    · simp [hu]
  have h2 : db.users.find? (fun u =>
      u.username = nouser && u.password = hash anypass && u.is_active = 1) = none := by
    refine List.find?_eq_none.mpr (fun x hx => ?_)
    simp [hnouser x hx]
  refine ⟨?_, ?_⟩
  · simp only [IPTV.authenticate_user, h1, h2]
  · simp only [IPTV.authenticate_user, h1]

/-- Claim C8 witness: against the store holding only `bob`, authenticating as
`bob` with a wrong password and as the absent `nobody` with anything give the
identical negative result. -/
theorem c8_auth_negative_indistinguishable_witness :
    (∃ r ∈ IPTV.bobDB.users, r.username = "bob") ∧
    (∀ r ∈ IPTV.bobDB.users, r.username = "bob" → r.password ≠ IPTV.demoHash "wrong") ∧
    (∀ r ∈ IPTV.bobDB.users, r.username ≠ "nobody") ∧
    (IPTV.authenticate_user IPTV.demoHash "2025-01-01 00:00:00" IPTV.bobDB "bob" "wrong" =
      IPTV.authenticate_user IPTV.demoHash "2025-01-01 00:00:00" IPTV.bobDB
        "nobody" "anything" ∧
     IPTV.authenticate_user IPTV.demoHash "2025-01-01 00:00:00" IPTV.bobDB "bob" "wrong" =
      (none, IPTV.bobDB)) :=
  ⟨by decide, by decide, by decide,
   c8_auth_negative_indistinguishable IPTV.demoHash "2025-01-01 00:00:00" IPTV.bobDB
     "bob" "wrong" "nobody" "anything" (by decide) (by decide) (by decide)⟩

/-- Claim C9: a session in a terminal state (`is_active = 0`, whether closed
explicitly or expired by the stale-session sweep) is never modified by any
subsequent core operation — session update, cleanup sweep, admission
check-or-create — in particular it is never reactivated and its
`last_active` and `bytes_sent` stay untouched: the row found for its id
afterwards is the very same record. -/
theorem c9_terminal_session_immutable (hash : String → String) (op : IPTV.CoreOp)
    (db : IPTV.DB) (sid : String) (s : IPTV.Session)
    (hfind : IPTV.findSession db sid = some s) (hterm : s.is_active = 0) :
    IPTV.findSession (IPTV.applyCoreOp hash op db) sid = some s := by
  unfold IPTV.findSession at hfind
  cases op with
  | update tid b now =>
    unfold IPTV.applyCoreOp IPTV.findSession IPTV.update_session
    rw [IPTV.find?_map_session_id _
      (fun r => by
        by_cases hc : (r.session_id = tid && r.is_active = 1 : Bool) = true <;> simp [hc])
      db.sessions sid, hfind]
    have hred : ∀ (g : IPTV.Session → IPTV.Session),
        Option.map g (some s) = some (g s) := fun g => rfl
    rw [hred]
    simp [hterm]
  | cleanup now cutoff days =>
    unfold IPTV.applyCoreOp IPTV.findSession IPTV.cleanup_old_data IPTV.log_action
    rw [IPTV.find?_map_session_id _
      (fun r => by by_cases hc : IPTV.strLt r.last_active cutoff = true <;> simp [hc])
      db.sessions sid, hfind]
    have hred : ∀ (g : IPTV.Session → IPTV.Session),
        Option.map g (some s) = some (g s) := fun g => rfl
    rw [hred]
    by_cases hb : IPTV.strLt s.last_active cutoff = true
    · simp only [hb, if_true]
      cases s with
      | mk f1 f2 f3 f4 f5 f6 f7 f8 f9 =>
        simp only [IPTV.Session.mk.injEq]
        simp at hterm
        simp [hterm]
    · simp [hb]
  | admitCreate uid st ip ua now =>
    obtain ⟨tail, htail⟩ := IPTV.sessions_after_admitCreate hash now db uid st ip ua
    unfold IPTV.findSession
    rw [htail, List.find?_append, hfind]
    rfl
  | admitCheck uid =>
    exact hfind

/-- Claim C9 witness: the closed session survives a cleanup sweep whose
cutoff postdates its last activity completely unchanged. -/
theorem c9_terminal_session_immutable_witness :
    IPTV.findSession IPTV.closedSessionDB "sess-closed" = some IPTV.closedSession ∧
    IPTV.closedSession.is_active = 0 ∧
    IPTV.findSession
      (IPTV.applyCoreOp IPTV.demoHash
        (IPTV.CoreOp.cleanup "2025-02-01 00:00:00" "2025-01-15 00:00:00" 30)
        IPTV.closedSessionDB) "sess-closed" = some IPTV.closedSession :=
  ⟨by decide, by decide,
   c9_terminal_session_immutable IPTV.demoHash
     (IPTV.CoreOp.cleanup "2025-02-01 00:00:00" "2025-01-15 00:00:00" 30)
     IPTV.closedSessionDB "sess-closed" IPTV.closedSession (by decide) (by decide)⟩

/-- Claim C10: creating a user under a fresh username (and a fresh api key,
the table's other UNIQUE column) succeeds, and authenticating immediately
with the same username and password returns exactly the record just created:
both operations apply the same hash, and the new row is active by default. -/
theorem c10_create_then_authenticate (hash : String → String) (now now2 : String)
    (db : IPTV.DB) (username password : String) (email : Option String) (role : String)
    (mc : Int)
    (hname : ∀ r ∈ db.users, r.username ≠ username)
    (hkey : ∀ r ∈ db.users, r.api_key ≠ some (hash (username ++ now))) :
    ∃ uid db1,
      IPTV.create_user hash now db username password email role mc = some (uid, db1) ∧
      (IPTV.authenticate_user hash now2 db1 username password).1 = some
        { id := uid, username := username, password := hash password, email := email,
          role := role, is_active := 1, max_connections := mc, created_at := now,
          expires_at := none, last_login := none,
          api_key := some (hash (username ++ now)) } := by
  have hany : db.users.any (fun u =>
      u.username = username || u.api_key = some (hash (username ++ now))) = false := by
    rw [List.any_eq_false]
    intro x hx
    simp [hname x hx, hkey x hx]
  set newrow : IPTV.User :=
    { id := IPTV.nextUserId db, username := username, password := hash password,
      email := email, role := role, is_active := 1, max_connections := mc,
      created_at := now, expires_at := none, last_login := none,
      api_key := some (hash (username ++ now)) } with hnewrow
  refine ⟨IPTV.nextUserId db,
    IPTV.log_action now { db with users := db.users ++ [newrow] } (some (IPTV.nextUserId db))
      "user_created" ("Created user: " ++ username), ?_, ?_⟩
  · simp only [IPTV.create_user, hany, Bool.false_eq_true, if_false]
  · have hfind : (db.users ++ [newrow]).find? (fun u =>
        u.username = username && u.password = hash password && u.is_active = 1) =
        some newrow := by
      rw [List.find?_append]
      have hl : db.users.find? (fun u =>
          u.username = username && u.password = hash password && u.is_active = 1) = none := by
        refine List.find?_eq_none.mpr (fun x hx => ?_)
        simp [hname x hx]
      rw [hl]
      have hpos : (fun u : IPTV.User =>
          u.username = username && u.password = hash password && u.is_active = 1) newrow
          = true := by
        simp [hnewrow]
      simp only [Option.none_or]
      exact List.find?_cons_of_pos _ hpos
    simp only [IPTV.authenticate_user, IPTV.log_action, hfind]

/-- Claim C10 witness: on the empty store, creating `newuser` and then
authenticating as `newuser` round-trips the created record. -/
theorem c10_create_then_authenticate_witness :
    (∀ r ∈ ({} : IPTV.DB).users, r.username ≠ "newuser") ∧
    (∀ r ∈ ({} : IPTV.DB).users,
      r.api_key ≠ some (IPTV.demoHash ("newuser" ++ "2025-01-01 00:00:00"))) ∧
    ∃ uid db1,
      IPTV.create_user IPTV.demoHash "2025-01-01 00:00:00" ({} : IPTV.DB)
        "newuser" "pw" none "user" 1 = some (uid, db1) ∧
      (IPTV.authenticate_user IPTV.demoHash "2025-01-02 00:00:00" db1 "newuser" "pw").1 =
        some { id := uid, username := "newuser", password := IPTV.demoHash "pw",
               email := none, role := "user", is_active := 1, max_connections := 1,
               created_at := "2025-01-01 00:00:00", expires_at := none, last_login := none,
               api_key := some (IPTV.demoHash ("newuser" ++ "2025-01-01 00:00:00")) } :=
  ⟨by simp, by simp,
   c10_create_then_authenticate IPTV.demoHash "2025-01-01 00:00:00" "2025-01-02 00:00:00"
     {} "newuser" "pw" none "user" 1 (by simp) (by simp)⟩

/-- Claim C3, amended: a request with an unknown, non-empty action behaves
exactly like a request with the action absent: when authentication fails the
response is the negative envelope, and when authentication succeeds the
response is the (positive) user-info envelope — never a protocol error.
(The claim as frozen asserted the negative envelope unconditionally, which
fails for authenticated requests — see the counterexample.) -/
theorem c3_unknown_action_same_as_absent (md5 : String → String) (db : Xtream.SDB)
    (action username password : String) (h : action ∉ Xtream.knownActions) :
    Xtream.handle_api_request md5 db action username password =
      Xtream.handle_api_request md5 db "" username password ∧
    (Xtream.authenticate_user md5 db username password = none →
      Xtream.handle_api_request md5 db action username password =
        Xtream.ApiResponse.authFail) ∧
    (∀ u, Xtream.authenticate_user md5 db username password = some u →
      Xtream.handle_api_request md5 db action username password =
        Xtream.get_user_info db username) := by
  have h' : action ≠ "get_live_categories" ∧ action ≠ "get_live_streams" ∧
      action ≠ "get_vod_categories" ∧ action ≠ "get_vod_streams" := by
    simpa [Xtream.knownActions] using h
  obtain ⟨h1, h2, h3, h4⟩ := h'
  cases hauth : Xtream.authenticate_user md5 db username password with
  | none =>
    refine ⟨?_, fun _ => ?_, fun u hu => by simp at hu⟩ <;>
      simp [Xtream.handle_api_request, hauth]
  | some u0 =>
    refine ⟨?_, fun hn => by simp at hn, fun u hu => ?_⟩
    · simp [Xtream.handle_api_request, hauth, h1, h2, h3, h4]
    · simp [Xtream.handle_api_request, hauth, h1, h2, h3, h4]

/-- Claim C3 amended witness: the unknown action `someaction` with the stock
`demo` credentials behaves exactly like the absent action. -/
theorem c3_unknown_action_same_as_absent_witness :
    ("someaction" ∉ Xtream.knownActions) ∧
    (Xtream.handle_api_request IPTV.demoHash IPTV.xtreamDemoDB "someaction" "demo" "demo" =
      Xtream.handle_api_request IPTV.demoHash IPTV.xtreamDemoDB "" "demo" "demo" ∧
     (Xtream.authenticate_user IPTV.demoHash IPTV.xtreamDemoDB "demo" "demo" = none →
       Xtream.handle_api_request IPTV.demoHash IPTV.xtreamDemoDB "someaction" "demo" "demo" =
         Xtream.ApiResponse.authFail) ∧
     (∀ u, Xtream.authenticate_user IPTV.demoHash IPTV.xtreamDemoDB "demo" "demo" = some u →
       Xtream.handle_api_request IPTV.demoHash IPTV.xtreamDemoDB "someaction" "demo" "demo" =
         Xtream.get_user_info IPTV.xtreamDemoDB "demo")) :=
  ⟨by decide,
   c3_unknown_action_same_as_absent IPTV.demoHash IPTV.xtreamDemoDB "someaction"
     "demo" "demo" (by decide)⟩
